import Mathlib

/-!
Shallow embedding of the Daum exchange-rate crawler (`src/main.py`).

The browser is modelled as pure input data: a `Page` holds the row sets the
structural selectors would return, a `NavEnv` holds what the pagination
cascade would observe, and an `Env` holds the whole per-invocation browser
behaviour (whether driver setup / initial navigation raise, and the page
contents seen by the first and second extraction pass).  Python exceptions
that the source catches are modelled by the corresponding `Option` / early
returns; the `finally: if self.driver: self.driver.quit()` blocks are
modelled by an explicit quit counter returned alongside each result.
-/

set_option autoImplicit false

/-- Record: one table row's observation, as built at `main.py:328-332`.
The Python dict keys are the Korean strings 고시회차 / 현재가 환율 / 수집일시;
the spec's field names `session_label` / `rate_value` / `collected_at` are
their renamings. -/
structure Record where
  session_label : String
  rate_value : String
  collected_at : String
deriving DecidableEq, Repr

/-- RowRead: what processing one table row can observe. `cells tds ths` gives
the text of the row's `td` and `th` cells; `stale` is a row whose processing
raises `NoSuchElementException` / `StaleElementReferenceException`, which the
per-row `except` at `main.py:334` absorbs. -/
inductive RowRead where
  | cells (tds ths : List String) : RowRead
  | stale : RowRead
deriving DecidableEq, Repr

/-- Page: the inputs of one `extract_exchange_data` call. `tableAbsent` models
the `table` presence wait at `main.py:262` timing out (the raised
`TimeoutException` reaches the outer `except` at line 339, so the call
returns `[]`). `selectorRows` lists, per structural selector tried at
`main.py:267-289`, the rows that selector yields; `trRows` is the generic
`tr`-tag fallback of line 293. -/
structure Page where
  tableAbsent : Bool
  selectorRows : List (List RowRead)
  trRows : List RowRead
deriving DecidableEq, Repr

/-- pyStrip: Python's `str.strip()` — drop whitespace from both ends. -/
def pyStrip (s : String) : String :=
  String.mk (((s.data.dropWhile Char.isWhitespace).reverse.dropWhile Char.isWhitespace).reverse)

/-- hasDigit: Python's `any(c.isdigit() for c in s)` (`main.py:321`). -/
def hasDigit (s : String) : Bool :=
  s.data.any Char.isDigit

/-- findRateCell: the rate-discovery loop of `main.py:317-325` — try the cell
indices in order, accept the first stripped cell text containing a digit;
an out-of-range index is skipped (the caught `IndexError`). If no candidate
is accepted the rate stays `""`. -/
def findRateCell (cells : List String) : List Nat → String
  | [] => ""
  | i :: rest =>
    match cells[i]? with
    | none => findRateCell cells rest
    | some t =>
      if hasDigit (pyStrip t) then pyStrip t else findRateCell cells rest

/-- rowRecord: the cell-level part of the per-row loop at `main.py:308-332`:
with at least 2 cells, cell 0 (stripped) is the candidate label and the rate
is searched at indices `[2, 1]` (3+ cells) or `[1]` (2 cells); a record is
built only when both strings are non-empty (`if session and rate`). -/
def rowRecord (now : String) (cs : List String) : Option Record :=
  if cs.length ≥ 2 then
    if pyStrip (cs.headD "") ≠ "" ∧
        findRateCell cs (if cs.length ≥ 3 then [2, 1] else [1]) ≠ "" then
      some { session_label := pyStrip (cs.headD "")
             rate_value := findRateCell cs (if cs.length ≥ 3 then [2, 1] else [1])
             collected_at := now }
    else none
  else none

/-- extractRow: one full row — stale rows are absorbed to `none` by the
per-row `except`; otherwise the `td` cells are used, falling back to the
`th` cells when fewer than 2 `td`s exist (`main.py:302-306`). -/
def extractRow (now : String) : RowRead → Option Record
  | RowRead.stale => none
  | RowRead.cells tds ths => rowRecord now (if tds.length < 2 then ths else tds)

/-- processRows: the whole row loop — each row independently, failed or
malformed rows contribute nothing. -/
def processRows (now : String) (rows : List RowRead) : List Record :=
  rows.filterMap (extractRow now)

/-- chooseRows: the selector cascade of `main.py:275-294` — the first
structural selector yielding at least one row wins, else the generic `tr`
fallback. -/
def chooseRows (p : Page) : List RowRead :=
  match p.selectorRows.find? (fun l => !l.isEmpty) with
  | some l => l
  | none => p.trRows

/-- extract_exchange_data (`main.py:258-341`): total — absent table gives
`[]` via the outer `except`, otherwise the chosen row set is processed row
by row. -/
def extract_exchange_data (now : String) (p : Page) : List Record :=
  if p.tableAbsent then []
  else processRows now (chooseRows p)

/-- badRow: a row that cannot produce a record — stale, or fewer than 2
cells in both the `td` and the `th` sets. -/
def badRow : RowRead → Bool
  | RowRead.stale => true
  | RowRead.cells tds ths => decide (tds.length < 2 ∧ ths.length < 2)

/-- NavEnv: the inputs of one `go_to_last_page` call (`main.py:175-256`).
`bodyAbsent` models the initial `body` wait raising (caught by the outer
`except`, line 254, returning `False`); `attempt1Found` models the fixed
structural XPath of line 185 resolving to a clickable button;
`attempt2Labels` are the visible texts of the pagination anchors enumerated
at line 206; `attempt3Labels` the texts of the single/double-character
anchors enumerated at line 228. -/
structure NavEnv where
  bodyAbsent : Bool
  attempt1Found : Bool
  attempt2Labels : List String
  attempt3Labels : List String
deriving DecidableEq, Repr

/-- lastPageWords: the known last/next-block labels of `main.py:211`. -/
def lastPageWords : List String :=
  ["마지막", "끝", ">>", ">|", "Last"]

/-- method2Find: attempt 2 of the cascade (`main.py:204-219`) — the first
anchor whose stripped text is one of the known last-page labels. -/
def method2Find (labels : List String) : Option String :=
  labels.find? (fun t => lastPageWords.contains (pyStrip t))

/-- digitsToNat: numeric value of a digit run. -/
def digitsToNat (cs : List Char) : Nat :=
  cs.foldl (fun n c => 10 * n + (c.toNat - 48)) 0

/-- pyInt: Python's `int(s)` on an already-stripped short string — an
optional sign followed by at least one digit; anything else raises
`ValueError`, modelled as `none`. -/
def pyInt (s : String) : Option Int :=
  match s.data with
  | [] => none
  | c :: rest =>
    if c = '+' then
      if rest ≠ [] ∧ rest.all Char.isDigit then some (Int.ofNat (digitsToNat rest)) else none
    else if c = '-' then
      if rest ≠ [] ∧ rest.all Char.isDigit then some (-(Int.ofNat (digitsToNat rest))) else none
    else if (c :: rest).all Char.isDigit then some (Int.ofNat (digitsToNat (c :: rest)))
    else none

/-- pageStep: one iteration of the `highest_page` loop (`main.py:233-239`):
parse the stripped anchor text, keep it when strictly larger than the
running maximum, skip it on `ValueError`. -/
def pageStep (highest : Int) (t : String) : Int :=
  match pyInt (pyStrip t) with
  | some n => if n > highest then n else highest
  | none => highest

/-- highestPage: the `highest_page` accumulator of `main.py:232-239`,
starting at 0. -/
def highestPage (labels : List String) : Int :=
  labels.foldl pageStep 0

/-- parsedPages: the multiset of anchor texts that `int()` accepts — the
numeric labels attempt 3 considers. -/
def parsedPages (labels : List String) : List Int :=
  labels.filterMap (fun t => pyInt (pyStrip t))

/-- go_to_last_page (`main.py:175-256`): the three-step cascade. The second
component records the URL page-parameter navigation of attempt 3
(`window.location.href = base_url?page=estimated_last_page`, line 247):
`some n` means the browser was pointed at page `n`; click-based attempts
and failures navigate no explicit page number. -/
def go_to_last_page (env : NavEnv) : Bool × Option Int :=
  if env.bodyAbsent then (false, none)
  else if env.attempt1Found then (true, none)
  else
    match method2Find env.attempt2Labels with
    | some _ => (true, none)
    | none =>
      let highest := highestPage env.attempt3Labels
      if highest > 0 then (true, some (highest + 10)) else (false, none)

/-- hasExact: the exact-match scan of `main.py:362-365` / `400-403`. -/
def hasExact (target : String) (data : List Record) : Option Record :=
  data.find? (fun item => item.session_label == target)

/-- containsRoundMarker: Python's `"회" in label` (`main.py:409`). -/
def containsRoundMarker (s : String) : Bool :=
  s.data.contains '회'

/-- firstDigitRun: `re.findall(r"\d+", label)[0]` parsed with `int`
(`main.py:410-413`) — the first maximal run of digit characters. -/
def firstDigitRun (s : String) : Option Nat :=
  let run := (s.data.dropWhile (fun c => !c.isDigit)).takeWhile Char.isDigit
  if run.isEmpty then none else some (digitsToNat run)

/-- numericCandidates: the `session_with_numbers` list of `main.py:406-417`:
records whose label contains the marker 회 and a digit run, paired with the
parsed first digit run, in discovery order. -/
def numericCandidates (data : List Record) : List (Nat × Record) :=
  data.filterMap (fun item =>
    if containsRoundMarker item.session_label then
      match firstDigitRun item.session_label with
      | some n => some (n, item)
      | none => none
    else none)

/-- minStep: keep the pair with the strictly smaller key. -/
def minStep (best y : Nat × Record) : Nat × Record :=
  if y.1 < best.1 then y else best

/-- pickMin: `sort(key=lambda x: x[0])` (a stable sort) followed by `[0]`
(`main.py:420-421`) — the first-encountered pair with minimal key. -/
def pickMin : List (Nat × Record) → Option (Nat × Record)
  | [] => none
  | x :: xs => some (xs.foldl minStep x)

/-- searchData: the pure part of `find_specific_session` (`main.py:355-430`)
given the records of the first extraction (`data`) and of the post-retry
extraction (`data2`): empty first extraction returns `None` at line 359;
exact match in either pass wins; otherwise the numeric fallback over
`data2`, then `data2[0]`, and `None` when `data2` is empty. -/
def searchData (target : String) (data data2 : List Record) : Option Record :=
  if data.isEmpty then none
  else
    match hasExact target data with
    | some item => some item
    | none =>
      match hasExact target data2 with
      | some item => some item
      | none =>
        match data2, pickMin (numericCandidates data2) with
        | [], _ => none
        | _ :: _, some p => some p.2
        | r0 :: _, none => some r0

/-- Env: one invocation's browser behaviour. `setupFails` — `setup_driver`
raises even after its fallback (`main.py:173`), leaving `self.driver` as
`None`; `getFails` — `driver.get(base_url)` raises; `nav` — what the
pagination cascade observes; `page1` / `now1` — the page contents and clock
at the first extraction; `page2` / `now2` — at the post-retry extraction.
The retry-click loop of `main.py:370-393` only changes the browser state
(already summarised by `page2`) and is otherwise observation-free, so it
needs no further inputs. -/
structure Env where
  setupFails : Bool
  getFails : Bool
  nav : NavEnv
  page1 : Page
  page2 : Page
  now1 : String
  now2 : String
deriving DecidableEq, Repr

/-- find_specific_session (`main.py:343-439`): the `except Exception` at
line 432 absorbs setup/navigation errors into `None`; the `finally` at
line 436 quits the driver exactly when one was created (`if self.driver`).
The second component counts `driver.quit()` calls. -/
def find_specific_session (env : Env) (target : String) : Option Record × Nat :=
  if env.setupFails then (none, 0)
  else if env.getFails then (none, 1)
  else
    let _nav := go_to_last_page env.nav
    (searchData target (extract_exchange_data env.now1 env.page1)
      (extract_exchange_data env.now2 env.page2), 1)

/-- get_all_exchange_rates (`main.py:441-468`): one navigation pass, one
extraction, errors absorbed to `[]`, same quit discipline. -/
def get_all_exchange_rates (env : Env) : List Record × Nat :=
  if env.setupFails then ([], 0)
  else if env.getFails then ([], 1)
  else
    let _nav := go_to_last_page env.nav
    (extract_exchange_data env.now1 env.page1, 1)

/-- csvLine: one CSV row of `main.py:478` — the three fields comma-joined
verbatim, with no quoting or escaping of embedded delimiters. -/
def csvLine (item : Record) : String :=
  item.session_label ++ "," ++ item.rate_value ++ "," ++ item.collected_at

/-- joinLines: Python's `"\n".join(rows)` — single newlines between lines,
nothing after the last line. -/
def joinLines : List String → String
  | [] => ""
  | [x] => x
  | x :: y :: xs => x ++ "\n" ++ joinLines (y :: xs)

/-- serializeCsv: the CSV branch of `save_to_s3` (`main.py:474-481`): the
header literal (which ends in a newline), a row list built by appending in
order, then the newline join. -/
def serializeCsv (data : List Record) : String :=
  let header := "고시회차,현재가 환율,수집일시\n"
  let rows := data.foldl (fun acc item => acc ++ [csvLine item]) ([] : List String)
  header ++ joinLines rows

/-- jsonEscapeChar: the escaping `json.dumps` applies to one character of a
string value (quote, backslash and the common control characters; with
`ensure_ascii=False` all other characters are kept verbatim). -/
def jsonEscapeChar (c : Char) : String :=
  if c.toNat = 92 then "\\\\"
  else if c.toNat = 34 then "\\\""
  else if c.toNat = 10 then "\\n"
  else if c.toNat = 9 then "\\t"
  else if c.toNat = 13 then "\\r"
  else String.mk [c]

/-- jsonEscape: `json.dumps` escaping of one string value. -/
def jsonEscape (s : String) : String :=
  String.join (s.data.map jsonEscapeChar)

/-- jsonSingle: `json.dumps(record_dict, ensure_ascii=False)` at
`main.py:495` — one JSON object with the three Korean keys in insertion
order and the default `", "` / `": "` separators. -/
def jsonSingle (r : Record) : String :=
  "\x7b\"고시회차\": \"" ++ jsonEscape r.session_label ++
  "\", \"현재가 환율\": \"" ++ jsonEscape r.rate_value ++
  "\", \"수집일시\": \"" ++ jsonEscape r.collected_at ++ "\"\x7d"

/-- S3Put: one `s3_client.put_object` call's bucket, key and body. -/
structure S3Put where
  bucket : String
  key : String
  body : String
deriving DecidableEq, Repr

/-- SaveData: the two data shapes `save_to_s3` accepts — a list of records
(CSV) or a single record dict (JSON). -/
inductive SaveData where
  | list (rs : List Record) : SaveData
  | single (r : Record) : SaveData
deriving DecidableEq, Repr

/-- save_to_s3 (`main.py:470-512`): a non-empty list is serialized as CSV, a
dict as JSON; an empty list matches neither branch and returns `False`
without any put. `putOk = false` models `put_object` raising (caught at
line 510, returning `False`); the put was still attempted, so the `S3Put`
is reported either way. -/
def save_to_s3 (putOk : Bool) (bucket fileName : String) : SaveData → Bool × Option S3Put
  | SaveData.list rs =>
    if rs.length > 0 then (putOk, some ⟨bucket, fileName, serializeCsv rs⟩)
    else (false, none)
  | SaveData.single r => (putOk, some ⟨bucket, fileName, jsonSingle r⟩)

/-- underscoreSpaces: Python's `label.replace(" ", "_")` (`main.py:569`) —
a single-character pattern, so a character-wise map. -/
def underscoreSpaces (s : String) : String :=
  String.mk (s.data.map (fun c => if c.toNat = 32 then '_' else c))

/-- HandlerResponse: the `result_data` dict of `main.py:536-541` plus the
envelope's status code; `file_name` and `data` are `none` when the source
leaves them unset / `None`. -/
structure HandlerResponse where
  statusCode : Nat
  success : Bool
  message : String
  timestamp : String
  data : Option Record
  file_name : Option String
deriving DecidableEq, Repr

/-- handler (`main.py:514-598`): mode selection, the mode's outcome, and the
persistence outcome mapped to the response envelope. `ts` stands for the
`datetime.now()` timestamp strings; the second component is the attempted
storage put, if any. No failure of the modelled crawl paths reaches the
top-level `except` of line 590 (they are all absorbed earlier), so every
modelled outcome carries `statusCode` 200. -/
def handler (env : Env) (bucket target : String) (getAll putOk : Bool)
    (ts : String) : HandlerResponse × Option S3Put :=
  if getAll then
    let allResults := (get_all_exchange_rates env).1
    if allResults.length > 0 then
      let fileName := "exchange_rates_" ++ ts ++ ".csv"
      let res := save_to_s3 putOk bucket fileName (SaveData.list allResults)
      if res.1 then
        ({ statusCode := 200, success := true,
           message := "총 " ++ toString allResults.length ++ "개의 데이터 수집 완료 및 S3 저장 성공",
           timestamp := ts, data := none, file_name := some fileName }, res.2)
      else
        ({ statusCode := 200, success := false,
           message := "데이터 수집은 완료되었으나 S3 저장 실패",
           timestamp := ts, data := none, file_name := none }, res.2)
    else
      ({ statusCode := 200, success := false, message := "수집된 데이터가 없습니다.",
         timestamp := ts, data := none, file_name := none }, none)
  else
    match (find_specific_session env target).1 with
    | some r =>
      let fileName := "exchange_rate_" ++ underscoreSpaces r.session_label ++ "_" ++ ts ++ ".json"
      let res := save_to_s3 putOk bucket fileName (SaveData.single r)
      if res.1 then
        ({ statusCode := 200, success := true,
           message := "\x27" ++ r.session_label ++ "\x27 데이터 수집 완료 및 S3 저장 성공",
           timestamp := ts, data := some r, file_name := some fileName }, res.2)
      else
        ({ statusCode := 200, success := false,
           message := "데이터 수집은 완료되었으나 S3 저장 실패",
           timestamp := ts, data := some r, file_name := none }, res.2)
    | none =>
      ({ statusCode := 200, success := false,
         message := "\x27" ++ target ++ "\x27를 찾지 못했습니다.",
         timestamp := ts, data := none, file_name := none }, none)

/-- Single-row page builder used by the concrete environments. -/
def rowOf (label rate : String) : RowRead :=
  RowRead.cells [label, rate] []

/-- Page holding the given rows under the first structural selector. -/
def pageOf (rows : List RowRead) : Page :=
  { tableAbsent := false, selectorRows := [rows], trRows := [] }

/-- Page on which the table never appears. -/
def pageNone : Page :=
  { tableAbsent := true, selectorRows := [], trRows := [] }

/-- Navigation environment whose initial body wait fails. -/
def navIdle : NavEnv :=
  { bodyAbsent := true, attempt1Found := false,
    attempt2Labels := [], attempt3Labels := [] }

/-- Environment with a working session and the two given extraction pages. -/
def mkEnv (p1 p2 : Page) : Env :=
  { setupFails := false, getFails := false, nav := navIdle,
    page1 := p1, page2 := p2, now1 := "t1", now2 := "t2" }

/-- Concrete environment whose driver setup succeeds but whose initial
navigation raises. -/
def envQuitOk : Env :=
  { setupFails := false, getFails := true,
    nav := { bodyAbsent := true, attempt1Found := false,
             attempt2Labels := [], attempt3Labels := [] },
    page1 := { tableAbsent := true, selectorRows := [], trRows := [] },
    page2 := { tableAbsent := true, selectorRows := [], trRows := [] },
    now1 := "t1", now2 := "t2" }

/-- Concrete environment whose driver setup raises. -/
def envQuitDown : Env :=
  { envQuitOk with setupFails := true }

/-- Concrete page holding one well-formed row and one malformed row. -/
def pageInv : Page :=
  { tableAbsent := false,
    selectorRows := [[RowRead.cells ["1회", "1,300.5"] [], RowRead.stale]],
    trRows := [] }

/-- Navigation environment forcing the numeric-estimate step with maximum
parsed label 12. -/
def navEstimate : NavEnv :=
  { bodyAbsent := false, attempt1Found := false,
    attempt2Labels := ["3"], attempt3Labels := [" 7", "12", "x"] }

/-- Navigation environment in which all three cascade steps fail. -/
def navAllFail : NavEnv :=
  { bodyAbsent := false, attempt1Found := false,
    attempt2Labels := ["5"], attempt3Labels := ["-3", "x"] }

/-- Environment whose first extraction yields one record (label 3회, no
exact match for 1회) but whose second extraction yields nothing. -/
def envStage1Only : Env :=
  mkEnv (pageOf [rowOf "3회" "1,300"]) pageNone

/-- Environment whose extractions hold labels "2" (digits, no 회 marker) and
"5회", neither matching the target. -/
def envDigitNoMarker : Env :=
  mkEnv (pageOf [rowOf "2" "1,300", rowOf "5회" "1,301"])
    (pageOf [rowOf "2" "1,300", rowOf "5회" "1,301"])

/-- Environment realizing the spec's own example: labels 5회, 2회, 9회 and
no exact match for the target 7회. -/
def envMarkerLabels : Env :=
  mkEnv (pageOf [rowOf "5회" "1100", rowOf "2회" "1300", rowOf "9회" "1200"])
    (pageOf [rowOf "5회" "1100", rowOf "2회" "1300", rowOf "9회" "1200"])

/-- Environment whose driver setup raises even after the fallback. -/
def envNoDriver : Env :=
  { mkEnv (pageOf [rowOf "1회" "1300"]) pageNone with setupFails := true }

/-- Environment that finds the exact record 1회 and collects one bulk
record. -/
def envCollected : Env :=
  mkEnv (pageOf [rowOf "1회" "1,300.5"]) pageNone

/-- Environment in which the target 7회 is absent and the numeric fallback
selects the record labelled "2 회" (a label with an embedded space). -/
def envFallbackLabel : Env :=
  mkEnv (pageOf [rowOf "9회" "1000"]) (pageOf [rowOf "2 회" "1,234.5"])

/-- A rate accepted by the rate-discovery loop contains a digit: the loop
only stops at a candidate passing the digit check. -/
lemma findRateCell_hasDigit (cells : List String) (idxs : List Nat)
    (h : findRateCell cells idxs ≠ "") :
    hasDigit (findRateCell cells idxs) = true := by
  induction idxs with
  | nil => simp [findRateCell] at h
  | cons i rest ih =>
    simp only [findRateCell] at h ⊢
    cases hg : cells[i]? with
    | none => simp only [hg] at h ⊢; exact ih h
    | some t =>
      simp only [hg] at h ⊢
      by_cases hd : hasDigit (pyStrip t) = true
      · simp [hd]
      · simp only [hd, Bool.false_eq_true, if_false] at h ⊢
        exact ih h

/-- A constructed record's fields satisfy the construction guard: non-empty
label, non-empty digit-bearing rate, extraction-time stamp. -/
lemma rowRecord_some (now : String) (cs : List String) (r : Record)
    (h : rowRecord now cs = some r) :
    r.session_label ≠ "" ∧ r.rate_value ≠ "" ∧ hasDigit r.rate_value = true ∧
      r.collected_at = now := by
  unfold rowRecord at h
  by_cases h2 : cs.length ≥ 2
  · rw [if_pos h2] at h
    by_cases hg : pyStrip (cs.headD "") ≠ "" ∧
        findRateCell cs (if cs.length ≥ 3 then [2, 1] else [1]) ≠ ""
    · rw [if_pos hg] at h
      injection h with h
      subst h
      exact ⟨hg.1, hg.2, findRateCell_hasDigit _ _ hg.2, rfl⟩
    · rw [if_neg hg] at h
      exact absurd h (by simp)
  · rw [if_neg h2] at h
    exact absurd h (by simp)

/-- Lifting `rowRecord_some` to whole rows. -/
lemma extractRow_some (now : String) (row : RowRead) (r : Record)
    (h : extractRow now row = some r) :
    r.session_label ≠ "" ∧ r.rate_value ≠ "" ∧ hasDigit r.rate_value = true ∧
      r.collected_at = now := by
  cases row with
  | stale => simp [extractRow] at h
  | cells tds ths => exact rowRecord_some now _ r h

/-- A bad row (stale, or fewer than 2 cells among both the data and the
header cells) produces no record. -/
lemma extractRow_of_badRow (now : String) (b : RowRead) (hb : badRow b = true) :
    extractRow now b = none := by
  cases b with
  | stale => rfl
  | cells tds ths =>
    simp only [badRow, decide_eq_true_eq] at hb
    simp only [extractRow]
    rw [if_pos hb.1]
    unfold rowRecord
    rw [if_neg (by omega)]

/-- C4: for every invocation in which a browser session was created
(`setup_driver` did not raise), `driver.quit()` runs exactly once via the
`finally` blocks of `find_specific_session` and `get_all_exchange_rates`,
whatever the exit path (record found, NotFound/empty, or an exception during
navigation, extraction or search); when no session exists the cleanup's
`if self.driver` guard makes the release a no-op (zero quit calls). -/
theorem C4_release_once (env : Env) (target : String) :
    (env.setupFails = false →
      (find_specific_session env target).2 = 1 ∧ (get_all_exchange_rates env).2 = 1)
    ∧ (env.setupFails = true →
      (find_specific_session env target).2 = 0 ∧ (get_all_exchange_rates env).2 = 0) := by
  constructor
  · intro h
    cases hg : env.getFails <;>
      simp [find_specific_session, get_all_exchange_rates, h, hg]
  · intro h
    simp [find_specific_session, get_all_exchange_rates, h]

theorem C4_release_once_witness :
    ((find_specific_session envQuitOk "1회").2 = 1 ∧
      (get_all_exchange_rates envQuitOk).2 = 1) ∧
    ((find_specific_session envQuitDown "1회").2 = 0 ∧
      (get_all_exchange_rates envQuitDown).2 = 0) :=
  ⟨(C4_release_once envQuitOk "1회").1 rfl,
   (C4_release_once envQuitDown "1회").2 rfl⟩

/-- C5: every record produced by extraction has a non-empty `session_label`
and a non-empty `rate_value` containing at least one digit character; rows
failing these checks are discarded without producing a record and without
raising (extraction is a total function of the page). -/
theorem C5_record_invariant (now : String) (p : Page) (r : Record)
    (h : r ∈ extract_exchange_data now p) :
    r.session_label ≠ "" ∧ r.rate_value ≠ "" ∧ hasDigit r.rate_value = true := by
  unfold extract_exchange_data at h
  by_cases ht : p.tableAbsent
  · rw [if_pos ht] at h
    exact absurd h (List.not_mem_nil r)
  · rw [if_neg ht] at h
    unfold processRows at h
    obtain ⟨row, _, hrow⟩ := List.mem_filterMap.mp h
    obtain ⟨h1, h2, h3, _⟩ := extractRow_some now row r hrow
    exact ⟨h1, h2, h3⟩

theorem C5_record_invariant_witness :
    ({ session_label := "1회", rate_value := "1,300.5", collected_at := "t" }
        : Record).session_label ≠ "" ∧
    ({ session_label := "1회", rate_value := "1,300.5", collected_at := "t" }
        : Record).rate_value ≠ "" ∧
    hasDigit ({ session_label := "1회", rate_value := "1,300.5", collected_at := "t" }
        : Record).rate_value = true :=
  C5_record_invariant "t" pageInv
    { session_label := "1회", rate_value := "1,300.5", collected_at := "t" }
    (by decide)

/-- C6: extraction is total and row-local. A row with fewer than 2 parsable
cells (in both the `td` and the fallback `th` collection) or a stale row
produces no record; dropping it is local — the records of the surrounding
rows are exactly preserved; and extraction never yields more records than
the chosen row set has rows (each row contributes at most one record, and
the function always returns a list, never aborts). -/
theorem C6_extract_row_local (now : String) (p : Page) (pre suf : List RowRead)
    (b : RowRead) (hb : badRow b = true) :
    extractRow now b = none ∧
    processRows now (pre ++ b :: suf) = processRows now pre ++ processRows now suf ∧
    (extract_exchange_data now p).length ≤ (chooseRows p).length := by
  have hnone := extractRow_of_badRow now b hb
  refine ⟨hnone, ?_, ?_⟩
  · unfold processRows
    rw [List.filterMap_append]
    rw [List.filterMap_cons_none hnone]
  · unfold extract_exchange_data
    by_cases ht : p.tableAbsent
    · rw [if_pos ht]
      exact Nat.zero_le _
    · rw [if_neg ht]
      exact List.length_filterMap_le _ _

theorem C6_extract_row_local_witness :
    extractRow "t" (RowRead.cells ["solo"] ["hdr"]) = none ∧
    processRows "t" ([RowRead.cells ["1회", "1,300.5"] []] ++
        RowRead.cells ["solo"] ["hdr"] :: [RowRead.cells ["2회", "1,301.0"] []]) =
      processRows "t" [RowRead.cells ["1회", "1,300.5"] []] ++
        processRows "t" [RowRead.cells ["2회", "1,301.0"] []] ∧
    (extract_exchange_data "t" pageInv).length ≤ (chooseRows pageInv).length :=
  C6_extract_row_local "t" pageInv
    [RowRead.cells ["1회", "1,300.5"] []]
    [RowRead.cells ["2회", "1,301.0"] []]
    (RowRead.cells ["solo"] ["hdr"]) (by decide)

/-- The `highest_page` fold is bounded below by its accumulator, is the
accumulator or one of the parsed labels, and dominates every parsed label. -/
lemma foldl_pageStep_bounds (labels : List String) :
    ∀ h0 : Int,
      h0 ≤ labels.foldl pageStep h0 ∧
      (labels.foldl pageStep h0 = h0 ∨ labels.foldl pageStep h0 ∈ parsedPages labels) ∧
      (∀ x ∈ parsedPages labels, x ≤ labels.foldl pageStep h0) := by
  induction labels with
  | nil => intro h0; simp [parsedPages]
  | cons t rest ih =>
    intro h0
    cases hp : pyInt (pyStrip t) with
    | none =>
      have hstep : pageStep h0 t = h0 := by simp [pageStep, hp]
      have hps : parsedPages (t :: rest) = parsedPages rest := by
        simp [parsedPages, List.filterMap_cons, hp]
      simp only [List.foldl, hstep, hps]
      exact ih h0
    | some n =>
      have hstep : pageStep h0 t = if n > h0 then n else h0 := by simp [pageStep, hp]
      have hps : parsedPages (t :: rest) = n :: parsedPages rest := by
        simp [parsedPages, List.filterMap_cons, hp]
      simp only [List.foldl, hstep, hps]
      by_cases hn : n > h0
      · rw [if_pos hn]
        obtain ⟨ih1, ih2, ih3⟩ := ih n
        refine ⟨le_trans (le_of_lt hn) ih1, ?_, ?_⟩
        · rcases ih2 with h | h
          · exact Or.inr (by rw [h]; exact List.mem_cons_self n _)
          · exact Or.inr (List.mem_cons_of_mem n h)
        · intro x hx
          rcases List.mem_cons.mp hx with rfl | hx
          · exact ih1
          · exact ih3 x hx
      · rw [if_neg hn]
        obtain ⟨ih1, ih2, ih3⟩ := ih h0
        refine ⟨ih1, ?_, ?_⟩
        · rcases ih2 with h | h
          · exact Or.inl h
          · exact Or.inr (List.mem_cons_of_mem n h)
        · intro x hx
          rcases List.mem_cons.mp hx with rfl | hx
          · exact le_trans (not_lt.mp hn) ih1
          · exact ih3 x hx

/-- C8: in the navigator's third cascade step (reached when the structural
click and the label click both fail), the page navigated to via the URL
page-parameter is the maximum parsed single/double-digit anchor label plus
the fixed offset 10, provided that maximum is positive (the loop starts at
0 and only climbs); when no parsed label is positive this step fails too and
the whole cascade returns `false` without raising, navigating nowhere — the
caller proceeds on the current page. -/
theorem C8_numeric_estimate (env : NavEnv)
    (hbody : env.bodyAbsent = false) (h1 : env.attempt1Found = false)
    (h2 : method2Find env.attempt2Labels = none) :
    (∀ m : Int, m ∈ parsedPages env.attempt3Labels →
        (∀ x ∈ parsedPages env.attempt3Labels, x ≤ m) → 0 < m →
        go_to_last_page env = (true, some (m + 10)))
    ∧ ((∀ x ∈ parsedPages env.attempt3Labels, x ≤ 0) →
        go_to_last_page env = (false, none)) := by
  obtain ⟨hge0, hmem, hub⟩ := foldl_pageStep_bounds env.attempt3Labels 0
  have hH : highestPage env.attempt3Labels = env.attempt3Labels.foldl pageStep 0 := rfl
  constructor
  · intro m hm hmax hpos
    have hle : m ≤ highestPage env.attempt3Labels := hH ▸ hub m hm
    have hge : highestPage env.attempt3Labels ≤ m := by
      rcases hmem with h | h
      · rw [hH, h]; omega
      · exact hmax _ (hH ▸ h)
    have heq : highestPage env.attempt3Labels = m := le_antisymm hge hle
    simp only [go_to_last_page, hbody, Bool.false_eq_true, if_false, h1, h2]
    rw [heq, if_pos hpos]
  · intro hall
    have hle0 : highestPage env.attempt3Labels ≤ 0 := by
      rcases hmem with h | h
      · rw [hH, h]
      · exact hall _ (hH ▸ h)
    simp only [go_to_last_page, hbody, Bool.false_eq_true, if_false, h1, h2]
    rw [if_neg (by omega)]

theorem C8_numeric_estimate_witness :
    go_to_last_page navEstimate = (true, some 22) ∧
    go_to_last_page navAllFail = (false, none) :=
  ⟨(C8_numeric_estimate navEstimate rfl rfl (by decide)).1 12 (by decide)
      (by decide) (by decide),
   (C8_numeric_estimate navAllFail rfl rfl (by decide)).2 (by decide)⟩

/-- Folding `minStep` over pairs all at least the accumulator keeps the
accumulator. -/
lemma foldl_minStep_of_min (l : List (Nat × Record)) (best : Nat × Record)
    (h : ∀ q ∈ l, best.1 ≤ q.1) : l.foldl minStep best = best := by
  induction l generalizing best with
  | nil => rfl
  | cons x xs ih =>
    have hx : ¬ x.1 < best.1 := not_lt.mpr (h x (List.mem_cons_self x xs))
    simp only [List.foldl, minStep, if_neg hx]
    exact ih best (fun q hq => h q (List.mem_cons_of_mem x hq))

/-- Folding `minStep` finds a pair strictly below the accumulator and
everything before it, and at most everything after it. -/
lemma foldl_minStep_finds (l1 : List (Nat × Record)) :
    ∀ (l2 : List (Nat × Record)) (best p : Nat × Record),
      p.1 < best.1 → (∀ q ∈ l1, p.1 < q.1) → (∀ q ∈ l2, p.1 ≤ q.1) →
      (l1 ++ p :: l2).foldl minStep best = p := by
  induction l1 with
  | nil =>
    intro l2 best p hb _ h2
    simp only [List.nil_append, List.foldl, minStep, if_pos hb]
    exact foldl_minStep_of_min l2 p h2
  | cons x xs ih =>
    intro l2 best p hb h1 h2
    simp only [List.cons_append, List.foldl]
    refine ih l2 (minStep best x) p ?_ (fun q hq => h1 q (List.mem_cons_of_mem x hq)) h2
    unfold minStep
    split
    · exact h1 x (List.mem_cons_self x xs)
    · exact hb

/-- `pickMin` — a stable sort by key followed by taking the head — returns
the first-encountered pair of minimal key. -/
lemma pickMin_split (l1 l2 : List (Nat × Record)) (p : Nat × Record)
    (h1 : ∀ q ∈ l1, p.1 < q.1) (h2 : ∀ q ∈ l2, p.1 ≤ q.1) :
    pickMin (l1 ++ p :: l2) = some p := by
  cases l1 with
  | nil =>
    simp only [List.nil_append, pickMin, Option.some.injEq]
    exact foldl_minStep_of_min l2 p h2
  | cons x xs =>
    simp only [List.cons_append, pickMin, Option.some.injEq]
    exact foldl_minStep_finds xs l2 x p (h1 x (List.mem_cons_self x xs))
      (fun q hq => h1 q (List.mem_cons_of_mem x hq)) h2

/-- The search cascade yields no record exactly when the first extraction is
empty, or the first extraction has no exact match and the second extraction
is empty. -/
lemma searchData_none_iff (target : String) (d1 d2 : List Record) :
    searchData target d1 d2 = none ↔
      (d1 = [] ∨ (hasExact target d1 = none ∧ d2 = [])) := by
  unfold searchData
  by_cases h1 : d1 = []
  · simp [h1]
  · have hie : d1.isEmpty = false := List.isEmpty_eq_false.mpr h1
    simp only [hie, Bool.false_eq_true, if_false]
    cases hx1 : hasExact target d1 with
    | some a => simp [h1]
    | none =>
      cases hx2 : hasExact target d2 with
      | some a =>
        cases d2 with
        | nil => simp [hasExact] at hx2
        | cons r0 rest => simp [h1]
      | none =>
        cases d2 with
        | nil => simp [h1]
        | cons r0 rest =>
          cases hp : pickMin (numericCandidates (r0 :: rest)) with
          | some p => simp [h1]
          | none => simp [h1]

/-- C1 (amended): with the browser session created and the initial page
load succeeding, `find(target)` returns NotFound exactly when the first
extraction was empty, or the first extraction had no exact match and the
post-retry extraction was empty. In particular, with zero extracted records
at every stage it returns NotFound without raising; but a non-empty
first-stage extraction does not guarantee a record — an empty second-stage
extraction still yields NotFound. -/
theorem C1_notfound_iff (env : Env) (target : String)
    (hs : env.setupFails = false) (hg : env.getFails = false) :
    (find_specific_session env target).1 = none ↔
      (extract_exchange_data env.now1 env.page1 = [] ∨
        (hasExact target (extract_exchange_data env.now1 env.page1) = none ∧
         extract_exchange_data env.now2 env.page2 = [])) := by
  unfold find_specific_session
  rw [if_neg (by simp [hs]), if_neg (by simp [hg])]
  exact searchData_none_iff target _ _

/-- C1 counterexample: the first-stage extraction is non-empty, yet
`find("1회")` returns NotFound, because the post-retry extraction came back
empty — refuting "whenever some stage's extraction was non-empty it returns
a record rather than NotFound". -/
theorem C1_counterexample :
    extract_exchange_data "t1" envStage1Only.page1 ≠ [] ∧
    (find_specific_session envStage1Only "1회").1 = none := by decide

theorem C1_notfound_iff_witness :
    (find_specific_session envStage1Only "1회").1 = none ↔
      (extract_exchange_data "t1" envStage1Only.page1 = [] ∨
        (hasExact "1회" (extract_exchange_data "t1" envStage1Only.page1) = none ∧
         extract_exchange_data "t2" envStage1Only.page2 = [])) :=
  C1_notfound_iff envStage1Only "1회" rfl rfl

/-- C2 counterexample: the extraction contains a record labelled "2" — a
session_label with a numeric substring whose first digit run (2) is the
minimum over all such labels — yet `find("7회")` returns the "5회" record
(digit run 5): the numeric fallback of `main.py:409` only considers labels
containing the round marker 회, not every label with a numeric substring. -/
theorem C2_counterexample :
    (find_specific_session envDigitNoMarker "7회").1 =
      some { session_label := "5회", rate_value := "1,301", collected_at := "t2" } ∧
    { session_label := "2", rate_value := "1,300", collected_at := "t2" } ∈
      extract_exchange_data "t2" envDigitNoMarker.page2 ∧
    firstDigitRun "2" = some 2 ∧
    firstDigitRun "5회" = some 5 := by decide

/-- C2 (amended): when the session works, the first extraction is non-empty,
and neither extraction pass contains an exact match, then if any
second-pass `session_label` contains the round marker 회 together with a
numeric substring, `find` returns the record whose first digit run parses to
the minimum number over all such marker-bearing labels, ties broken by the
first-encountered record (stable sort then head). -/
theorem C2_numeric_fallback (env : Env) (target : String)
    (hs : env.setupFails = false) (hg : env.getFails = false)
    (hne : extract_exchange_data env.now1 env.page1 ≠ [])
    (hx1 : hasExact target (extract_exchange_data env.now1 env.page1) = none)
    (hx2 : hasExact target (extract_exchange_data env.now2 env.page2) = none)
    (l1 l2 : List (Nat × Record)) (p : Nat × Record)
    (hsplit : numericCandidates (extract_exchange_data env.now2 env.page2) =
      l1 ++ p :: l2)
    (h1 : ∀ q ∈ l1, p.1 < q.1) (h2 : ∀ q ∈ l2, p.1 ≤ q.1) :
    (find_specific_session env target).1 = some p.2 := by
  have hd2 : extract_exchange_data env.now2 env.page2 ≠ [] := by
    intro h0
    rw [h0] at hsplit
    exact List.append_ne_nil_of_right_ne_nil l1 (List.cons_ne_nil p l2)
      (by simpa [numericCandidates] using hsplit.symm)
  obtain ⟨r0, rest, hd2e⟩ := List.exists_cons_of_ne_nil hd2
  unfold find_specific_session
  rw [if_neg (by simp [hs]), if_neg (by simp [hg])]
  unfold searchData
  rw [if_neg (by simp [List.isEmpty_eq_false.mpr hne])]
  rw [hx1, hx2, hd2e]
  rw [hd2e] at hsplit
  rw [hsplit, pickMin_split l1 l2 p h1 h2]

theorem C2_numeric_fallback_witness :
    (find_specific_session envMarkerLabels "7회").1 =
      some { session_label := "2회", rate_value := "1300", collected_at := "t2" } :=
  C2_numeric_fallback envMarkerLabels "7회" rfl rfl (by decide) (by decide) (by decide)
    [(5, { session_label := "5회", rate_value := "1100", collected_at := "t2" })]
    [(9, { session_label := "9회", rate_value := "1200", collected_at := "t2" })]
    (2, { session_label := "2회", rate_value := "1300", collected_at := "t2" })
    (by decide) (by decide) (by decide)

/-- The row-accumulation loop of the CSV branch builds exactly the mapped
line list, in order. -/
lemma foldl_append_singleton (f : Record → String) (l : List Record) :
    ∀ acc : List String,
      l.foldl (fun a item => a ++ [f item]) acc = acc ++ l.map f := by
  induction l with
  | nil => intro acc; simp
  | cons x xs ih =>
    intro acc
    simp only [List.foldl, List.map]
    rw [ih (acc ++ [f x]), List.append_assoc]
    rfl

/-- C9: for every non-empty record list, the bulk-export body handed to the
storage put is the header row (the three field names, comma-joined, as the
source's Korean literals) followed by one comma-joined line per record in
order, lines joined by single newlines with no trailing blank line
(`joinLines` puts nothing after the last line), and each field embedded
verbatim — `csvLine` applies no quoting or escaping of embedded
delimiters. -/
theorem C9_csv_serialization (putOk : Bool) (bucket fileName : String)
    (rs : List Record) (h : rs ≠ []) :
    (save_to_s3 putOk bucket fileName (SaveData.list rs)).2 =
      some { bucket := bucket, key := fileName,
             body := "고시회차,현재가 환율,수집일시\n" ++ joinLines (rs.map csvLine) } := by
  simp only [save_to_s3]
  rw [if_pos (show rs.length > 0 from List.length_pos.mpr h)]
  unfold serializeCsv
  rw [foldl_append_singleton csvLine rs []]
  rfl

theorem C9_csv_serialization_witness :
    (save_to_s3 true "b" "f.csv"
        (SaveData.list
          [{ session_label := "1회", rate_value := "1300.5", collected_at := "t1" }])).2 =
      some { bucket := "b", key := "f.csv",
             body := "고시회차,현재가 환율,수집일시\n1회,1300.5,t1" } :=
  C9_csv_serialization true "b" "f.csv"
    [{ session_label := "1회", rate_value := "1300.5", collected_at := "t1" }]
    (by decide)

/-- C3 (amended): when the browser session cannot be created,
`setup_driver`'s exception is caught inside `find_specific_session` /
`get_all_exchange_rates` (not at the handler's top level), the crawler
method returns no result, zero quit calls happen (no driver exists), and
the handler returns a structured statusCode-200 response with
`success = false` and `data = null` — a not-found / no-data message, not a
500; in no modelled path is the failure an unhandled crash. -/
theorem C3_setup_failure (env : Env) (bucket target ts : String)
    (getAll putOk : Bool) (h : env.setupFails = true) :
    (handler env bucket target getAll putOk ts).1.statusCode = 200 ∧
    (handler env bucket target getAll putOk ts).1.success = false ∧
    (handler env bucket target getAll putOk ts).1.data = none ∧
    (find_specific_session env target).2 = 0 ∧
    (get_all_exchange_rates env).2 = 0 := by
  have hf : find_specific_session env target = (none, 0) := by
    simp [find_specific_session, h]
  have hga : get_all_exchange_rates env = ([], 0) := by
    simp [get_all_exchange_rates, h]
  cases getAll
  · simp [handler, hf, hga]
  · simp [handler, hf, hga]

/-- C3 counterexample: with the browser session impossible to create, the
handler's response has statusCode 200 (a not-found message), not the 500
the claim requires — the failure is absorbed inside the crawler method and
never reaches the top-level handler's `except`. -/
theorem C3_counterexample :
    (handler envNoDriver "b" "1회" false true "ts").1.statusCode = 200 ∧
    (handler envNoDriver "b" "1회" false true "ts").1.statusCode ≠ 500 ∧
    (handler envNoDriver "b" "1회" false true "ts").1.success = false := by decide

theorem C3_setup_failure_witness :
    (handler envNoDriver "b2" "1회" true true "ts").1.statusCode = 200 ∧
    (handler envNoDriver "b2" "1회" true true "ts").1.success = false ∧
    (handler envNoDriver "b2" "1회" true true "ts").1.data = none ∧
    (find_specific_session envNoDriver "1회").2 = 0 ∧
    (get_all_exchange_rates envNoDriver).2 = 0 :=
  C3_setup_failure envNoDriver "b2" "1회" "ts" true true rfl

/-- C7 (amended): whenever the storage write fails after data was collected,
the response has `success = false` and the fixed save-failure message (the
underlying storage error is only logged, not surfaced); the collected data
is still reported in the response body's `data` field in single mode, but
in bulk mode the `data` field remains null — bulk mode never populates
it. -/
theorem C7_persistence_failure (env : Env) (bucket target ts : String)
    (r : Record) (hr : (find_specific_session env target).1 = some r)
    (hb : (get_all_exchange_rates env).1 ≠ []) :
    ((handler env bucket target false false ts).1.success = false ∧
     (handler env bucket target false false ts).1.data = some r ∧
     (handler env bucket target false false ts).1.message =
       "데이터 수집은 완료되었으나 S3 저장 실패") ∧
    ((handler env bucket target true false ts).1.success = false ∧
     (handler env bucket target true false ts).1.data = none ∧
     (handler env bucket target true false ts).1.message =
       "데이터 수집은 완료되었으나 S3 저장 실패") := by
  have hlen : (get_all_exchange_rates env).1.length > 0 := List.length_pos.mpr hb
  constructor
  · simp [handler, hr, save_to_s3]
  · simp [handler, save_to_s3, hlen]

/-- C7 counterexample: in bulk mode with the storage write failing, the
collected (non-empty) data is not reported — the response's `data` field is
null, refuting "the already-collected data is still reported in the
response body's data field when available, in both single and bulk
modes". -/
theorem C7_counterexample :
    (get_all_exchange_rates envCollected).1 ≠ [] ∧
    (handler envCollected "b" "1회" true false "ts").1.success = false ∧
    (handler envCollected "b" "1회" true false "ts").1.data = none := by decide

theorem C7_persistence_failure_witness :
    ((handler envCollected "b" "1회" false false "ts").1.success = false ∧
     (handler envCollected "b" "1회" false false "ts").1.data =
       some { session_label := "1회", rate_value := "1,300.5", collected_at := "t1" } ∧
     (handler envCollected "b" "1회" false false "ts").1.message =
       "데이터 수집은 완료되었으나 S3 저장 실패") ∧
    ((handler envCollected "b" "1회" true false "ts").1.success = false ∧
     (handler envCollected "b" "1회" true false "ts").1.data = none ∧
     (handler envCollected "b" "1회" true false "ts").1.message =
       "데이터 수집은 완료되었으나 S3 저장 실패") :=
  C7_persistence_failure envCollected "b" "1회" "ts"
    { session_label := "1회", rate_value := "1,300.5", collected_at := "t1" }
    (by decide) (by decide)

/-- C10: in single mode, whenever the search returns a record — including
fallback results whose label differs from the requested target — the
attempted storage put uses the key built from the returned record's
`session_label` with spaces replaced by underscores; the requested
`target_session` does not occur in the key (the right-hand side below does
not mention `target` at all), so a fallback result is persisted under the
fallback record's label. -/
theorem C10_key_from_result_label (env : Env) (bucket target ts : String)
    (putOk : Bool) (r : Record)
    (hr : (find_specific_session env target).1 = some r) :
    (handler env bucket target false putOk ts).2 =
      some { bucket := bucket,
             key := "exchange_rate_" ++ underscoreSpaces r.session_label ++
               "_" ++ ts ++ ".json",
             body := jsonSingle r } := by
  cases putOk <;> simp [handler, hr, save_to_s3]

theorem C10_key_from_result_label_witness :
    ((handler envFallbackLabel "bkt" "7회" false true "ts").2 =
      some { bucket := "bkt",
             key := "exchange_rate_" ++ underscoreSpaces "2 회" ++ "_" ++ "ts" ++ ".json",
             body := jsonSingle { session_label := "2 회", rate_value := "1,234.5",
                                  collected_at := "t2" } }) ∧
    underscoreSpaces "2 회" = "2_회" :=
  ⟨C10_key_from_result_label envFallbackLabel "bkt" "7회" "ts" true
      { session_label := "2 회", rate_value := "1,234.5", collected_at := "t2" }
      (by decide),
   by decide⟩
